import Mathlib

/-!
# Verification of the pyupbit client against its specification

Shallow embedding of `pyupbit/pyupbit.py` (class `PyUpbit`).  Python's
numeric values for prices and volumes are modelled as exact rationals
(`ℚ`): the decimal arithmetic the validation rules are about is exact
there, and the Python checks `x == int(x)` and `x % m == 0` become
denominator conditions on rationals.  Each `raise Exception(...)` site
is modelled as a distinct constructor of an error type, and each method
is embedded as the pure pre-network part of the Python method: it returns
`Except` of either the typed error raised before any network activity,
or a description of the HTTP request the method would then issue.
-/

deriving instance DecidableEq for Except

namespace PyUpbit

/-- `market.split('-')[0]` — the quote-currency part of a market symbol:
the characters before the first `-` (code 45), the whole string when there
is none.  Python's `str.split` always yields a nonempty list, so index 0
never fails (the `try/except` around it in `_is_valid_price` is dead). -/
def quoteOf (market : String) : String :=
  String.mk (market.toList.takeWhile (fun ch => ch ≠ Char.ofNat 45))

/-- Models the Python check `x == int(x)` on an exact value: a rational
equals its integer truncation exactly when its reduced denominator is 1. -/
def isIntVal (q : ℚ) : Bool :=
  q.den == 1

/-- Models the Python check `p % m == 0` on exact values: the remainder is
zero exactly when `p` is an integer multiple of `m`, i.e. `p / m` is an
integer. -/
def modZero (p m : ℚ) : Bool :=
  (p / m).den == 1

/-- One constructor per `raise Exception(...)` site reachable before a
network call in the Python source; the message strings at those sites are
pairwise distinct, so the constructors carry the same information. -/
inductive ApiErr where
  | invalidUnit (unit : Int)
  | invalidMarket (market : String)
  | invalidParam (msg : String)
  | invalidSide (side : String)
  | invalidPrice (market : String) (price : ℚ)
  | belowMin (market : String) (price volume : ℚ)
  | invalidBase (base : String)
  | invalidState (state : String)
  | invalidOrderBy (ob : String)
  | missingCredentials
  deriving DecidableEq, Repr

/-- `_is_valid_price(self, market, price)`, lines 665–723.  The KRW branch
is the `if price <= 10 ... elif ... else` ladder; each bracket returns
`False` when its exactness check fails and the method returns `True`
otherwise. -/
def krw_price_ok (price : ℚ) : Bool :=
  if price ≤ 10 then isIntVal (price * 100)
  else if price ≤ 100 then isIntVal (price * 10)
  else if price ≤ 1000 then isIntVal price
  else if price ≤ 10000 then modZero price 5
  else if price ≤ 100000 then modZero price 10
  else if price ≤ 500000 then modZero price 50
  else if price ≤ 1000000 then modZero price 100
  else if price ≤ 2000000 then modZero price 500
  else modZero price 1000

/-- `_is_valid_price`: dispatches on the quote currency; raises
`invalid base coin` for an unsupported quote (modelled as `.error`).
After the membership guard the final Python branch `if base == 'USDT'`
is the only remaining case, so it is the `else` here. -/
def _is_valid_price (market : String) (price : ℚ) : Except ApiErr Bool :=
  if quoteOf market ∉ (["KRW", "BTC", "ETH", "USDT"] : List String) then
    .error (.invalidBase (quoteOf market))
  else if quoteOf market = "KRW" then
    .ok (krw_price_ok price)
  else if quoteOf market = "BTC" ∨ quoteOf market = "ETH" then
    .ok (isIntVal (price * 100000000))
  else
    .ok (isIntVal (price * 1000))

/-- `_is_above_min(self, market, price, volume)`, lines 725–747.  For a
quote currency outside KRW/BTC/ETH/USDT the Python function falls off the
end and implicitly returns `None`, modelled as `none`. -/
def _is_above_min (market : String) (price volume : ℚ) : Option Bool :=
  if quoteOf market = "KRW" then
    some (!(price * volume < 500))
  else if quoteOf market = "BTC" ∨ quoteOf market = "ETH" ∨ quoteOf market = "USDT" then
    some (!(price * volume < 5 / 10000))
  else
    none

/-- Description of the HTTP request an endpoint method issues once all of
its pre-network validation has passed. -/
structure Request where
  url : String
  params : List (String × String)
  deriving DecidableEq, Repr

/-- `order(self, market, side, volume, price, ord_type)`, lines 496–551.
Checks run in source order: market membership, side, `_is_valid_price`
(whose own `invalid base coin` exception propagates), `_is_above_min`.
Note the Python test is `if not self._is_above_min(...)`: both `False`
and `None` are falsy, so anything but `some true` raises. -/
def order (catalog : List String) (market side : String) (volume price : ℚ)
    (ord_type : String) : Except ApiErr Request :=
  if market ∉ catalog then .error (.invalidMarket market)
  else if side ∉ (["bid", "ask"] : List String) then .error (.invalidSide side)
  else
    match _is_valid_price market price with
    | .error e => .error e
    | .ok false => .error (.invalidPrice market price)
    | .ok true =>
      match _is_above_min market price volume with
      | some true =>
        .ok { url := "https://api.upbit.com/v1/orders",
              params := [("market", market), ("side", side),
                         ("volume", toString volume), ("price", toString price),
                         ("ord_type", ord_type)] }
      | _ => .error (.belowMin market price volume)

/-- Optional-parameter entries appended to a params dict (`if to is not
None: params['to'] = to`, etc.). -/
def optEntry (key : String) : Option String → List (String × String)
  | none => []
  | some v => [(key, v)]

/-- `get_minutes_candles(self, unit, market, to, count)`, lines 47–83.
The unit check precedes the market-membership check in the source. -/
def get_minutes_candles (catalog : List String) (unit : Int) (market : String)
    (toTime count : Option String) : Except ApiErr Request :=
  if unit ∉ ([1, 3, 5, 10, 15, 30, 60, 240] : List Int) then
    .error (.invalidUnit unit)
  else if market ∉ catalog then .error (.invalidMarket market)
  else
    .ok { url := "https://api.upbit.com/v1/candles/minutes/" ++ toString unit,
          params := ("market", market) :: optEntry "to" toTime ++ optEntry "count" count }

/-- Common shape of `get_days_candles` / `get_weeks_candles` /
`get_months_candles` (lines 85–188): market check, then params. -/
def candles_common (url : String) (catalog : List String) (market : String)
    (toTime count : Option String) : Except ApiErr Request :=
  if market ∉ catalog then .error (.invalidMarket market)
  else
    .ok { url := url,
          params := ("market", market) :: optEntry "to" toTime ++ optEntry "count" count }

def get_days_candles (catalog : List String) (market : String)
    (toTime count : Option String) : Except ApiErr Request :=
  candles_common "https://api.upbit.com/v1/candles/days" catalog market toTime count

def get_weeks_candles (catalog : List String) (market : String)
    (toTime count : Option String) : Except ApiErr Request :=
  candles_common "https://api.upbit.com/v1/candles/weeks" catalog market toTime count

def get_months_candles (catalog : List String) (market : String)
    (toTime count : Option String) : Except ApiErr Request :=
  candles_common "https://api.upbit.com/v1/candles/months" catalog market toTime count

/-- `get_trades_ticks(self, market, to, count, cursor)`, lines 190–225. -/
def get_trades_ticks (catalog : List String) (market : String)
    (toTime count cursor : Option String) : Except ApiErr Request :=
  if market ∉ catalog then .error (.invalidMarket market)
  else
    .ok { url := "https://api.upbit.com/v1/trades/ticks",
          params := ("market", market) :: optEntry "to" toTime
                      ++ optEntry "count" count ++ optEntry "cursor" cursor }

/-- The loop of `get_ticker` / `get_orderbook`: raise on the first element
not in the catalog (the loop raises inside its body, so later elements are
never reached once one fails). -/
def firstInvalid (catalog : List String) : List String → Option String
  | [] => none
  | m :: rest => if m ∉ catalog then some m else firstInvalid catalog rest

/-- Common shape of `get_ticker` (lines 227–281) and `get_orderbook`
(lines 283–340): a non-list argument is untypable in this embedding (the
`isinstance` guard); an empty list raises `no markets`; then every element
is checked against the catalog and the joined string is sent. -/
def ticker_common (url : String) (catalog mkts : List String) :
    Except ApiErr Request :=
  if mkts.isEmpty then .error (.invalidParam "no markets")
  else
    match firstInvalid catalog mkts with
    | some m => .error (.invalidMarket m)
    | none => .ok { url := url, params := [("markets", String.intercalate "," mkts)] }

def get_ticker (catalog mkts : List String) : Except ApiErr Request :=
  ticker_common "https://api.upbit.com/v1/ticker" catalog mkts

def get_orderbook (catalog mkts : List String) : Except ApiErr Request :=
  ticker_common "https://api.upbit.com/v1/orderbook" catalog mkts

/-- `get_chance(self, market)`, lines 366–395. -/
def get_chance (catalog : List String) (market : String) : Except ApiErr Request :=
  if market ∉ catalog then .error (.invalidMarket market)
  else
    .ok { url := "https://api.upbit.com/v1/orders/chance",
          params := [("market", market)] }

/-- `get_orders(self, market, state, page, order_by)`, lines 445–494.
The market check comes first, then state, then order_by. -/
def get_orders (catalog : List String) (market state : String) (page : Int)
    (order_by : String) : Except ApiErr Request :=
  if market ∉ catalog then .error (.invalidMarket market)
  else if state ∉ (["wait", "done", "cancel"] : List String) then
    .error (.invalidState state)
  else if order_by ∉ (["asc", "desc"] : List String) then
    .error (.invalidOrderBy order_by)
  else
    .ok { url := "https://api.upbit.com/v1/orders",
          params := [("market", market), ("state", state),
                     ("page", toString page), ("order_by", order_by)] }

/-!
## Request builder and signer

`urlencode` below is `urllib.parse.urlencode` with its default
`quote_via=quote_plus`: keys and values are percent-encoded over their
UTF-8 bytes, with ASCII letters, digits and `_.-~` kept, space mapped to
`+`, and every other byte written `%XX` in uppercase hex; pairs are
joined `k=v` with `&`.
-/

/-- Uppercase hex digit of a value < 16. -/
def hexDigit (n : Nat) : Char :=
  if n < 10 then Char.ofNat (48 + n) else Char.ofNat (55 + n)

/-- `%XX` escape of one byte value, uppercase hex. -/
def percentByte (b : Nat) : String :=
  String.mk [Char.ofNat 37, hexDigit (b / 16), hexDigit (b % 16)]

/-- The UTF-8 bytes of one character, as natural numbers below 256. -/
def utf8Bytes (ch : Char) : List Nat :=
  if ch.toNat < 128 then [ch.toNat]
  else if ch.toNat < 2048 then
    [192 + ch.toNat / 64, 128 + ch.toNat % 64]
  else if ch.toNat < 65536 then
    [224 + ch.toNat / 4096, 128 + ch.toNat / 64 % 64, 128 + ch.toNat % 64]
  else
    [240 + ch.toNat / 262144, 128 + ch.toNat / 4096 % 64,
     128 + ch.toNat / 64 % 64, 128 + ch.toNat % 64]

/-- One byte of `quote_plus` output: ASCII letters, digits and `_.-~`
pass through, space becomes `+`, everything else is `%XX`. -/
def quoteByte (b : Nat) : String :=
  if (48 ≤ b ∧ b ≤ 57) ∨ (65 ≤ b ∧ b ≤ 90) ∨ (97 ≤ b ∧ b ≤ 122)
      ∨ b = 95 ∨ b = 46 ∨ b = 45 ∨ b = 126 then
    String.singleton (Char.ofNat b)
  else if b = 32 then "+"
  else percentByte b

/-- `urllib.parse.quote_plus` with the default empty `safe` set, applied
bytewise to the UTF-8 encoding of the string. -/
def quote_plus (s : String) : String :=
  String.join ((s.toList.flatMap utf8Bytes).map quoteByte)

/-- `urllib.parse.urlencode` on an association list. -/
def urlencode (query : List (String × String)) : String :=
  String.intercalate "&" (query.map fun kv => quote_plus kv.1 ++ "=" ++ quote_plus kv.2)

/-- The payload `_get_token` hands to the external signing primitive
(`jwt.encode`); `query : none` means the field is absent from the dict. -/
structure TokenPayload where
  access_key : Option String
  nonce : Int
  query : Option String
  deriving DecidableEq, Repr

/-- The client state after `__init__`: both keys are optional, and
`markets` is whatever `_load_markets` returned (Python lets that be
`None`, hence the `Option`). -/
structure Client where
  access_key : Option String
  secret_key : Option String
  markets : Option (List String)
  deriving DecidableEq, Repr

/-- `_get_token(self, query)`, lines 640–653.  `nonce` is
`int(datetime.timestamp(datetime.utcnow() + timedelta(hours=9)))`: with
`now_utc` the current Unix time in whole seconds, that is `now_utc + 9*3600`.
The dict receives a `query` entry exactly when the argument is not `None`.
The function then calls `jwt.encode(payload, self.secret_key, 'HS256')`,
an external primitive; we return the payload together with the secret it
is signed with. -/
def _get_token (c : Client) (now_utc : Int) (query : Option (List (String × String))) :
    TokenPayload × Option String :=
  ({ access_key := c.access_key,
     nonce := now_utc + 9 * 3600,
     query := query.map urlencode }, c.secret_key)

/-- What a private endpoint hands to the transport: the auth-header
payload together with the secret used to sign it.  The Python code
performs no credential check anywhere on this path — a client without
keys still reaches this point, with `access_key = none` in the payload
and `none` as the signing secret (the external `jwt` library then rejects
the absent key; the failure is not a pre-signing credentials error). -/
structure SignAttempt where
  payload : TokenPayload
  secret : Option String
  deriving DecidableEq, Repr

/-- `_get_headers(self, query=None)`, lines 655–663: builds the bearer
header by signing.  No validation of any kind happens here. -/
def _get_headers (c : Client) (now_utc : Int)
    (query : Option (List (String × String))) : SignAttempt :=
  { payload := (_get_token c now_utc query).1, secret := (_get_token c now_utc query).2 }

/-- `get_accounts(self)`, lines 346–364, up to its network call: the only
work before `requests.get` is building the auth header with no query. -/
def get_accounts_prepare (c : Client) (now_utc : Int) : Except ApiErr SignAttempt :=
  .ok (_get_headers c now_utc none)

/-!
## Transport adapter and constructor
-/

/-- The fields of a `requests` response the wrappers inspect.  (`text` is
modelled as optional because the code guards it with `is not None`.) -/
structure Resp where
  status_code : Nat
  text : Option String
  deriving DecidableEq, Repr

/-- The exceptions the transport wrappers can raise: the message built
from the body text when the body is present, the message built from the
status code when it is not, and the `TypeError` that `json.loads(None)`
raises on the success path. -/
inductive HttpErr where
  | failedBody (body : String)
  | failedStatus (status : Nat)
  | decodeNone
  deriving DecidableEq, Repr

/-- `_get(self, url, **kwargs)`, lines 570–586: only statuses 200 and 201
succeed; on failure the raised message carries `resp.text` when that is
not `None` and otherwise the status code; on success the body is decoded
(`json.loads`, modelled by the abstract decoder `parse`) and returned
as-is. -/
def _get {α : Type} (parse : String → α) (resp : Resp) : Except HttpErr α :=
  if resp.status_code ∉ ([200, 201] : List Nat) then
    match resp.text with
    | some t => .error (.failedBody t)
    | none => .error (.failedStatus resp.status_code)
  else
    match resp.text with
    | some t => .ok (parse t)
    | none => .error .decodeNone

/-- `_post`, lines 588–603: identical control flow to `_get`. -/
def _post {α : Type} (parse : String → α) (resp : Resp) : Except HttpErr α :=
  if resp.status_code ∉ ([200, 201] : List Nat) then
    match resp.text with
    | some t => .error (.failedBody t)
    | none => .error (.failedStatus resp.status_code)
  else
    match resp.text with
    | some t => .ok (parse t)
    | none => .error .decodeNone

/-- `_delete`, lines 605–620: identical control flow to `_get`. -/
def _delete {α : Type} (parse : String → α) (resp : Resp) : Except HttpErr α :=
  if resp.status_code ∉ ([200, 201] : List Nat) then
    match resp.text with
    | some t => .error (.failedBody t)
    | none => .error (.failedStatus resp.status_code)
  else
    match resp.text with
    | some t => .ok (parse t)
    | none => .error .decodeNone

/-- One record of the market-list response; `_load_markets` extracts its
`market` field. -/
structure MarketRecord where
  market : String
  deriving DecidableEq, Repr

/-- `_load_markets(self)`, lines 622–638, as a function of the outcome of
`self.get_market_all()`: if that call raises, the exception is re-raised;
if it returns `None` (`market_all is None`), the function executes a bare
`return`, i.e. returns `None` itself; otherwise it returns the list of
`market` fields. -/
def _load_markets (market_all : Except String (Option (List MarketRecord))) :
    Except String (Option (List String)) :=
  match market_all with
  | .error e => .error e
  | .ok none => .ok none
  | .ok (some records) => .ok (some (records.map MarketRecord.market))

/-- `__init__(self, access_key, secret_key)`, lines 16–24: stores the keys
and sets `self.markets = self._load_markets()`.  Construction completes
whenever `_load_markets` does not raise — including when it returns
`None`. -/
def PyUpbit_init (access_key secret_key : Option String)
    (market_all : Except String (Option (List MarketRecord))) :
    Except String Client :=
  (_load_markets market_all).map fun ms =>
    { access_key := access_key, secret_key := secret_key, markets := ms }

/-!
## Spec-side definitions

These two definitions follow the words of the specification (the bracket
table of §4.3 and "exact multiple of the increment"); they are compared
against the code-side `krw_price_ok` ladder. -/

/-- Spec-side: `price` is an exact multiple of `inc`. -/
def isMultipleOf (price inc : ℚ) : Prop :=
  ∃ k : ℤ, price = (k : ℚ) * inc

/-- Spec-side: the KRW tick-size ladder of the specification, increment
as a function of the price bracket. -/
def bracketInc (price : ℚ) : ℚ :=
  if price ≤ 10 then 1 / 100
  else if price ≤ 100 then 1 / 10
  else if price ≤ 1000 then 1
  else if price ≤ 10000 then 5
  else if price ≤ 100000 then 10
  else if price ≤ 500000 then 50
  else if price ≤ 1000000 then 100
  else if price ≤ 2000000 then 500
  else 1000

/-!
## Helper lemmas
-/

lemma den_one_iff_int (q : ℚ) : q.den = 1 ↔ ∃ k : ℤ, q = (k : ℚ) := by
  rw [Rat.den_eq_one_iff]
  constructor
  · intro h
    exact ⟨q.num, h.symm⟩
  · rintro ⟨k, rfl⟩
    simp

lemma modZero_iff (q m : ℚ) (hm : m ≠ 0) :
    modZero q m = true ↔ isMultipleOf q m := by
  unfold modZero isMultipleOf
  rw [beq_iff_eq, den_one_iff_int]
  apply exists_congr
  intro k
  rw [div_eq_iff hm]

lemma isIntVal_mul_iff (q c : ℚ) (hc : c ≠ 0) :
    isIntVal (q * c) = true ↔ isMultipleOf q (1 / c) := by
  unfold isIntVal isMultipleOf
  rw [beq_iff_eq, den_one_iff_int]
  apply exists_congr
  intro k
  rw [mul_one_div, eq_div_iff hc]

lemma isIntVal_one_iff (q : ℚ) : isIntVal q = true ↔ isMultipleOf q 1 := by
  unfold isIntVal isMultipleOf
  rw [beq_iff_eq, den_one_iff_int]
  apply exists_congr
  intro k
  rw [mul_one]

/-- The code-side KRW ladder agrees bracket by bracket with the spec-side
increment table. -/
lemma krw_price_ok_iff (price : ℚ) :
    krw_price_ok price = true ↔ isMultipleOf price (bracketInc price) := by
  unfold krw_price_ok bracketInc
  split_ifs
  · exact isIntVal_mul_iff price 100 (by norm_num)
  · exact isIntVal_mul_iff price 10 (by norm_num)
  · exact isIntVal_one_iff price
  · exact modZero_iff price 5 (by norm_num)
  · exact modZero_iff price 10 (by norm_num)
  · exact modZero_iff price 50 (by norm_num)
  · exact modZero_iff price 100 (by norm_num)
  · exact modZero_iff price 500 (by norm_num)
  · exact modZero_iff price 1000 (by norm_num)

lemma valid_price_eq_krw (market : String) (price : ℚ)
    (h : quoteOf market = "KRW") :
    _is_valid_price market price = .ok (krw_price_ok price) := by
  unfold _is_valid_price
  rw [h, if_neg (by decide), if_pos rfl]

lemma valid_price_eq_btc_eth (market : String) (price : ℚ)
    (h : quoteOf market = "BTC" ∨ quoteOf market = "ETH") :
    _is_valid_price market price = .ok (isIntVal (price * 100000000)) := by
  unfold _is_valid_price
  rcases h with h | h
  · rw [h, if_neg (by decide), if_neg (by decide), if_pos (by decide)]
  · rw [h, if_neg (by decide), if_neg (by decide), if_pos (by decide)]

lemma valid_price_eq_usdt (market : String) (price : ℚ)
    (h : quoteOf market = "USDT") :
    _is_valid_price market price = .ok (isIntVal (price * 1000)) := by
  unfold _is_valid_price
  rw [h, if_neg (by decide), if_neg (by decide), if_neg (by decide)]

lemma valid_price_eq_bad (market : String) (price : ℚ)
    (h : quoteOf market ∉ (["KRW", "BTC", "ETH", "USDT"] : List String)) :
    _is_valid_price market price = .error (.invalidBase (quoteOf market)) := by
  unfold _is_valid_price
  rw [if_pos h]

lemma above_min_eq_krw (market : String) (price volume : ℚ)
    (h : quoteOf market = "KRW") :
    _is_above_min market price volume = some (!(price * volume < 500)) := by
  unfold _is_above_min
  rw [h, if_pos rfl]

lemma above_min_eq_crypto (market : String) (price volume : ℚ)
    (h : quoteOf market = "BTC" ∨ quoteOf market = "ETH" ∨ quoteOf market = "USDT") :
    _is_above_min market price volume = some (!(price * volume < 5 / 10000)) := by
  unfold _is_above_min
  rcases h with h | h | h <;>
    rw [h, if_neg (by decide), if_pos (by decide)]

lemma above_min_eq_none (market : String) (price volume : ℚ)
    (h : quoteOf market ∉ (["KRW", "BTC", "ETH", "USDT"] : List String)) :
    _is_above_min market price volume = none := by
  unfold _is_above_min
  rw [if_neg, if_neg]
  · rintro (e | e | e) <;> · apply h; rw [e]; decide
  · intro e
    apply h
    rw [e]
    decide

/-!
## Claim theorems
-/

/-- **C1.** For a market whose quote prefix is KRW, `_is_valid_price`
returns true exactly when the price is an exact multiple of the increment
of its price bracket (0.01 up to 10, 0.1 up to 100, 1 up to 1000, 5 up to
10000, 10 up to 100000, 50 up to 500000, 100 up to 1000000, 500 up to
2000000, 1000 above); for quote BTC or ETH exactly when
`price * 10 ^ 8` is an integer; for quote USDT exactly when
`price * 10 ^ 3` is an integer; for any other quote prefix it fails with
the unsupported-quote (`invalid base coin`) error instead of returning a
boolean. -/
theorem valid_price_matches_spec (market : String) (price : ℚ) :
    (quoteOf market = "KRW" →
      (_is_valid_price market price = .ok true ↔
        isMultipleOf price (bracketInc price))) ∧
    (quoteOf market = "BTC" ∨ quoteOf market = "ETH" →
      (_is_valid_price market price = .ok true ↔
        ∃ k : ℤ, price * 100000000 = (k : ℚ))) ∧
    (quoteOf market = "USDT" →
      (_is_valid_price market price = .ok true ↔
        ∃ k : ℤ, price * 1000 = (k : ℚ))) ∧
    (quoteOf market ∉ (["KRW", "BTC", "ETH", "USDT"] : List String) →
      _is_valid_price market price = .error (.invalidBase (quoteOf market))) := by
  refine ⟨fun h => ?_, fun h => ?_, fun h => ?_,
    fun h => valid_price_eq_bad market price h⟩
  · rw [valid_price_eq_krw market price h]
    simp only [Except.ok.injEq]
    exact krw_price_ok_iff price
  · rw [valid_price_eq_btc_eth market price h]
    simp only [Except.ok.injEq]
    unfold isIntVal
    rw [beq_iff_eq, den_one_iff_int]
  · rw [valid_price_eq_usdt market price h]
    simp only [Except.ok.injEq]
    unfold isIntVal
    rw [beq_iff_eq, den_one_iff_int]

/-- Witness for C1 at `market = "KRW-BTC"`, `price = 10000` (the boundary
case the spec itself works through: 10000 is a multiple of 5 in the
5-increment bracket). -/
theorem valid_price_matches_spec_witness :
    _is_valid_price "KRW-BTC" 10000 = .ok true :=
  ((valid_price_matches_spec "KRW-BTC" 10000).1 (by decide)).mpr
    ⟨2000, by norm_num [bracketInc]⟩

/-- **C2.** For a KRW-quoted market `_is_above_min` returns true exactly
when `price * volume ≥ 500`; for BTC/ETH/USDT-quoted markets exactly when
`price * volume ≥ 0.0005`; in particular the two concrete cases the spec
lists. -/
theorem above_min_matches_spec (market : String) (price volume : ℚ) :
    (quoteOf market = "KRW" →
      (_is_above_min market price volume = some true ↔ 500 ≤ price * volume)) ∧
    (quoteOf market = "BTC" ∨ quoteOf market = "ETH" ∨ quoteOf market = "USDT" →
      (_is_above_min market price volume = some true ↔
        5 / 10000 ≤ price * volume)) ∧
    _is_above_min "KRW-BTC" 100 4 = some false ∧
    _is_above_min "KRW-BTC" 100 5 = some true := by
  refine ⟨fun h => ?_, fun h => ?_, ?_, ?_⟩
  · rw [above_min_eq_krw market price volume h]
    simp only [Option.some.injEq, Bool.not_eq_true', decide_eq_false_iff_not,
      not_lt]
  · rw [above_min_eq_crypto market price volume h]
    simp only [Option.some.injEq, Bool.not_eq_true', decide_eq_false_iff_not,
      not_lt]
  · rw [above_min_eq_krw "KRW-BTC" 100 4 (by decide)]
    norm_num
  · rw [above_min_eq_krw "KRW-BTC" 100 5 (by decide)]
    norm_num

/-- Witness for C2 at a BTC-quoted market with `price * volume = 1`. -/
theorem above_min_matches_spec_witness :
    _is_above_min "BTC-XRP" 1 1 = some true :=
  ((above_min_matches_spec "BTC-XRP" 1 1).2.1 (Or.inl (by decide))).mpr
    (by norm_num)

/-- **C5 counterexample**: for the unsupported quote prefix `XRP`,
`_is_above_min` returns Python `None` (modelled `none`) — neither a
boolean nor an explicit error, so the function is not total in the sense
the claim states. -/
theorem above_min_falls_through_concrete :
    _is_above_min "XRP-KRW" 1 1 = none :=
  above_min_eq_none "XRP-KRW" 1 1 (by decide)

/-- **C5 (amended)**: for every market symbol whose quote prefix is not
KRW, BTC, ETH or USDT, `_is_above_min` falls off the end of the function
and returns `None` — no boolean and no raised error. -/
theorem above_min_unsupported_returns_none (market : String) (price volume : ℚ)
    (h : quoteOf market ∉ (["KRW", "BTC", "ETH", "USDT"] : List String)) :
    _is_above_min market price volume = none :=
  above_min_eq_none market price volume h

/-- Witness for the amended C5 at quote prefix `ABC`. -/
theorem above_min_unsupported_returns_none_witness :
    _is_above_min "ABC-DEF" 2 3 = none :=
  above_min_unsupported_returns_none "ABC-DEF" 2 3 (by decide)

/-- **C10.** The price validator imposes no positivity requirement: for a
KRW-quoted market every non-positive price that is an exact multiple of
0.01 (hence in the lowest bracket) is accepted, and `order` performs no
positivity check on price or volume — a negative-price, negative-volume
order passes every validator and reaches the POST request. -/
theorem no_positivity_check (market : String) (price : ℚ)
    (hq : quoteOf market = "KRW") (hle : price ≤ 0)
    (hmul : isMultipleOf price (1 / 100)) :
    _is_valid_price market price = .ok true ∧
    order ["KRW-BTC"] "KRW-BTC" "bid" (-10) (-100) "limit" =
      .ok { url := "https://api.upbit.com/v1/orders",
            params := [("market", "KRW-BTC"), ("side", "bid"),
                       ("volume", "-10"), ("price", "-100"),
                       ("ord_type", "limit")] } := by
  constructor
  · rw [valid_price_eq_krw market price hq]
    simp only [Except.ok.injEq]
    rw [krw_price_ok_iff]
    have hb : bracketInc price = 1 / 100 := by
      unfold bracketInc
      rw [if_pos (le_trans hle (by norm_num))]
    rw [hb]
    exact hmul
  · have hvp : _is_valid_price "KRW-BTC" (-100) = .ok true := by
      rw [valid_price_eq_krw "KRW-BTC" (-100) (by decide)]
      simp only [Except.ok.injEq]
      rw [krw_price_ok_iff]
      have hb : bracketInc (-100 : ℚ) = 1 / 100 := by
        unfold bracketInc
        rw [if_pos (by norm_num)]
      rw [hb]
      exact ⟨-10000, by norm_num⟩
    have ham : _is_above_min "KRW-BTC" (-100) (-10) = some true := by
      rw [above_min_eq_krw "KRW-BTC" (-100) (-10) (by decide)]
      norm_num
    unfold order
    rw [if_neg (by decide), if_neg (by decide), hvp, ham]
    rfl

/-- Witness for C10 at `market = "KRW-XRP"`, `price = -0.03`. -/
theorem no_positivity_check_witness :
    _is_valid_price "KRW-XRP" (-3 / 100) = .ok true :=
  (no_positivity_check "KRW-XRP" (-3 / 100) (by decide) (by norm_num)
    ⟨-3, by norm_num⟩).1

/-- **C3.** The payload `_get_token` hands to the signing primitive always
carries `access_key` equal to the client's access key and `nonce` equal to
the current Unix time shifted by +9 hours; with a non-empty parameter map
the payload additionally carries `query` equal to the percent-encoded
query string of exactly that map, and with no parameters (the `None`
argument every parameterless private call passes) the `query` field is
absent from the payload. -/
theorem token_payload_spec (c : Client) (now_utc : Int)
    (params : List (String × String)) (_hne : params ≠ []) :
    ((_get_token c now_utc (some params)).1.access_key = c.access_key ∧
     (_get_token c now_utc (some params)).1.nonce = now_utc + 9 * 3600 ∧
     (_get_token c now_utc (some params)).1.query = some (urlencode params)) ∧
    ((_get_token c now_utc none).1.access_key = c.access_key ∧
     (_get_token c now_utc none).1.nonce = now_utc + 9 * 3600 ∧
     (_get_token c now_utc none).1.query = none) :=
  ⟨⟨rfl, rfl, rfl⟩, ⟨rfl, rfl, rfl⟩⟩

/-- Witness for C3 at a concrete client, instant and parameter map. -/
theorem token_payload_spec_witness :
    (_get_token (Client.mk (some "ak") (some "sk") (some ["KRW-BTC"]))
        1700000000 (some [("market", "KRW-BTC")])).1.access_key = some "ak" ∧
    (_get_token (Client.mk (some "ak") (some "sk") (some ["KRW-BTC"]))
        1700000000 (some [("market", "KRW-BTC")])).1.nonce = 1700000000 + 9 * 3600 ∧
    (_get_token (Client.mk (some "ak") (some "sk") (some ["KRW-BTC"]))
        1700000000 (some [("market", "KRW-BTC")])).1.query =
      some (urlencode [("market", "KRW-BTC")]) :=
  (token_payload_spec (Client.mk (some "ak") (some "sk") (some ["KRW-BTC"]))
    1700000000 [("market", "KRW-BTC")] (by decide)).1

/-- **C7 counterexample**: a client constructed without credentials does
not fail with a missing-credentials error on a private call; the
`get_accounts` pipeline succeeds in reaching the signing step, handing the
external signer a payload with `access_key = None` and the absent secret. -/
theorem no_credential_check_concrete :
    get_accounts_prepare (Client.mk none none (some ["KRW-BTC"])) 1700000000 ≠
      .error .missingCredentials ∧
    get_accounts_prepare (Client.mk none none (some ["KRW-BTC"])) 1700000000 =
      .ok (SignAttempt.mk (TokenPayload.mk none 1700032400 none) none) :=
  ⟨fun h => Except.noConfusion h, rfl⟩

/-- **C7 (amended)**: the code performs no credentials check at all: a
private call on a credential-less client builds the token payload (with
absent `access_key`) and reaches the external signing primitive with the
absent secret; the deterministic failure arises inside that primitive,
not as a fail-fast missing-credentials error before signing. -/
theorem private_call_reaches_signing (c : Client) (now_utc : Int)
    (hak : c.access_key = none) (hsk : c.secret_key = none) :
    get_accounts_prepare c now_utc =
      .ok (SignAttempt.mk (TokenPayload.mk none (now_utc + 9 * 3600) none) none) := by
  unfold get_accounts_prepare _get_headers _get_token
  rw [hak, hsk]
  rfl

/-- Witness for the amended C7 at a concrete credential-less client. -/
theorem private_call_reaches_signing_witness :
    get_accounts_prepare (Client.mk none none (some [])) 0 =
      .ok (SignAttempt.mk (TokenPayload.mk none (0 + 9 * 3600) none) none) :=
  private_call_reaches_signing (Client.mk none none (some [])) 0 rfl rfl

/-- **C8.** The claim says a market-list call that errors or returns
nothing makes construction fail with a catalog-load error, leaving no
client with an absent or empty catalog.  The code keeps the error half
(the exception is re-raised) but, at the failing input where
`get_market_all` returns JSON null, `_load_markets` executes a bare
`return` and construction succeeds with `self.markets = None`; a `[]`
response likewise yields a constructed client with an empty catalog. -/
theorem init_none_catalog_constructs_client :
    PyUpbit_init none none (.ok none) = .ok (Client.mk none none none) ∧
    PyUpbit_init none none (.ok (some [])) =
      .ok (Client.mk none none (some [])) ∧
    (∀ e : String, PyUpbit_init none none (.error e) = .error e) :=
  ⟨rfl, rfl, fun _ => rfl⟩

/-- **C9 counterexample**: 202 is a 2xx status, yet all three transport
wrappers reject it (only 200 and 201 succeed); moreover on a plain 404
with a body the raised error carries only the body text, not the status
code. -/
theorem status_202_rejected :
    _get (fun s => s) (Resp.mk 202 (some "[]")) = .error (.failedBody "[]") ∧
    _post (fun s => s) (Resp.mk 202 (some "[]")) = .error (.failedBody "[]") ∧
    _delete (fun s => s) (Resp.mk 202 (some "[]")) = .error (.failedBody "[]") ∧
    _get (fun s => s) (Resp.mk 404 (some "oops")) = .error (.failedBody "oops") :=
  ⟨rfl, rfl, rfl, rfl⟩

/-- **C9 (amended)**: for GET, POST and DELETE alike, a response whose
status is not 200 or 201 fails with an error carrying the body text when
the body is present (the status code appears in the error only when the
body is absent), and a 200/201 response has its body decoded and returned
as-is with no schema validation. -/
theorem transport_status_behavior {α : Type} (parse : String → α)
    (status : Nat) (body : String) :
    (status ∉ ([200, 201] : List Nat) →
      _get parse (Resp.mk status (some body)) = .error (.failedBody body) ∧
      _post parse (Resp.mk status (some body)) = .error (.failedBody body) ∧
      _delete parse (Resp.mk status (some body)) = .error (.failedBody body) ∧
      _get parse (Resp.mk status none) = .error (.failedStatus status)) ∧
    (status ∈ ([200, 201] : List Nat) →
      _get parse (Resp.mk status (some body)) = .ok (parse body) ∧
      _post parse (Resp.mk status (some body)) = .ok (parse body) ∧
      _delete parse (Resp.mk status (some body)) = .ok (parse body)) := by
  constructor
  · intro h
    refine ⟨?_, ?_, ?_, ?_⟩
    · unfold _get
      rw [if_pos h]
    · unfold _post
      rw [if_pos h]
    · unfold _delete
      rw [if_pos h]
    · unfold _get
      rw [if_pos h]
  · intro h
    refine ⟨?_, ?_, ?_⟩
    · unfold _get
      rw [if_neg (not_not_intro h)]
    · unfold _post
      rw [if_neg (not_not_intro h)]
    · unfold _delete
      rw [if_neg (not_not_intro h)]

/-- Witness for the amended C9 at status 500 with body and at status 200. -/
theorem transport_status_behavior_witness :
    _get (fun s => s) (Resp.mk 500 (some "E")) = .error (.failedBody "E") ∧
    _post (fun s => s) (Resp.mk 200 (some "{}")) = .ok "{}" :=
  ⟨((transport_status_behavior (fun s => s) 500 "E").1 (by decide)).1,
   ((transport_status_behavior (fun s => s) 200 "{}").2 (by decide)).2.1⟩

/-- If some member of the requested list is not in the catalog, the
`get_ticker`/`get_orderbook` loop raises on its first unknown element. -/
lemma firstInvalid_some (catalog : List String) (mkts : List String) (m : String)
    (hmem : m ∈ mkts) (hbad : m ∉ catalog) :
    ∃ m0, m0 ∉ catalog ∧ firstInvalid catalog mkts = some m0 := by
  induction mkts with
  | nil => cases hmem
  | cons a rest ih =>
    by_cases ha : a ∈ catalog
    · have hr : m ∈ rest := by
        rcases List.mem_cons.mp hmem with rfl | hr
        · exact absurd ha hbad
        · exact hr
      obtain ⟨m0, h1, h2⟩ := ih hr
      refine ⟨m0, h1, ?_⟩
      simp only [firstInvalid]
      rw [if_neg (not_not_intro ha)]
      exact h2
    · refine ⟨a, ha, ?_⟩
      simp only [firstInvalid]
      rw [if_pos ha]

lemma ticker_common_invalid (url : String) (catalog mkts : List String)
    (m : String) (hmem : m ∈ mkts) (hbad : m ∉ catalog) :
    ∃ m0, m0 ∉ catalog ∧
      ticker_common url catalog mkts = .error (.invalidMarket m0) := by
  obtain ⟨m0, h1, h2⟩ := firstInvalid_some catalog mkts m hmem hbad
  refine ⟨m0, h1, ?_⟩
  cases mkts with
  | nil => cases hmem
  | cons a rest =>
    unfold ticker_common
    rw [if_neg (by simp), h2]

/-- **C4.** With a catalogued market, `order` runs its validator checks in
order — side first (bid/ask, otherwise the invalid-side parameter error),
then price-tick validity, then minimum notional — fails with the typed
error of the first failing check without producing any request, and
produces the POST request exactly when all checks pass. -/
theorem order_check_sequence (catalog : List String) (market side : String)
    (volume price : ℚ) (ord_type : String) (hm : market ∈ catalog) :
    (side ∉ (["bid", "ask"] : List String) →
      order catalog market side volume price ord_type =
        .error (.invalidSide side)) ∧
    (side ∈ (["bid", "ask"] : List String) →
      (_is_valid_price market price = .ok false →
        order catalog market side volume price ord_type =
          .error (.invalidPrice market price)) ∧
      (_is_valid_price market price = .ok true →
        (_is_above_min market price volume ≠ some true →
          order catalog market side volume price ord_type =
            .error (.belowMin market price volume)) ∧
        (_is_above_min market price volume = some true →
          order catalog market side volume price ord_type =
            .ok { url := "https://api.upbit.com/v1/orders",
                  params := [("market", market), ("side", side),
                             ("volume", toString volume),
                             ("price", toString price),
                             ("ord_type", ord_type)] }))) := by
  constructor
  · intro hs
    unfold order
    rw [if_neg (not_not_intro hm), if_pos hs]
  · intro hs
    constructor
    · intro hp
      unfold order
      rw [if_neg (not_not_intro hm), if_neg (not_not_intro hs), hp]
    · intro hp
      constructor
      · intro hmin
        unfold order
        rw [if_neg (not_not_intro hm), if_neg (not_not_intro hs), hp]
        rcases hov : _is_above_min market price volume with _ | b
        · rfl
        · cases b
          · rfl
          · exact absurd hov hmin
      · intro hmin
        unfold order
        rw [if_neg (not_not_intro hm), if_neg (not_not_intro hs), hp, hmin]

/-- Witness for C4: side `hold` is rejected with the invalid-side error. -/
theorem order_check_sequence_witness :
    order ["KRW-BTC"] "KRW-BTC" "hold" 1 500 "limit" =
      .error (.invalidSide "hold") :=
  (order_check_sequence ["KRW-BTC"] "KRW-BTC" "hold" 1 500 "limit"
    (by decide)).1 (by decide)

/-- **C6 counterexample**: in `get_minutes_candles` the unit check runs
before the market check, so a call with an invalid unit and an unknown
market fails with the invalid-unit error, not the invalid-market error
the claim requires of every method. -/
theorem minutes_unit_precedes_market_check :
    get_minutes_candles ["KRW-BTC"] 7 "NOPE" none none =
      .error (.invalidUnit 7) ∧
    ApiErr.invalidUnit 7 ≠ ApiErr.invalidMarket "NOPE" ∧
    "NOPE" ∉ (["KRW-BTC"] : List String) := by
  refine ⟨?_, fun h => ApiErr.noConfusion h, by decide⟩
  unfold get_minutes_candles
  rw [if_pos (by decide)]

/-- **C6 (amended)**: for every market symbol not in the catalog, each
endpoint method taking a symbol fails before issuing any network request;
the failure is the invalid-market error — except `get_minutes_candles`,
whose unit check precedes the market check, so with an invalid unit the
failure is the invalid-unit error instead (still before any network
call); list arguments are checked element-wise and the error names the
first unknown element. -/
theorem invalid_market_rejected_before_network (catalog : List String)
    (market : String) (hm : market ∉ catalog) :
    (∀ toTime count, get_days_candles catalog market toTime count =
      .error (.invalidMarket market)) ∧
    (∀ toTime count, get_weeks_candles catalog market toTime count =
      .error (.invalidMarket market)) ∧
    (∀ toTime count, get_months_candles catalog market toTime count =
      .error (.invalidMarket market)) ∧
    (∀ toTime count cursor, get_trades_ticks catalog market toTime count cursor =
      .error (.invalidMarket market)) ∧
    get_chance catalog market = .error (.invalidMarket market) ∧
    (∀ state page order_by, get_orders catalog market state page order_by =
      .error (.invalidMarket market)) ∧
    (∀ side volume price ord_type, order catalog market side volume price ord_type =
      .error (.invalidMarket market)) ∧
    (∀ unit toTime count, unit ∈ ([1, 3, 5, 10, 15, 30, 60, 240] : List Int) →
      get_minutes_candles catalog unit market toTime count =
        .error (.invalidMarket market)) ∧
    (∀ unit toTime count, ∃ e,
      get_minutes_candles catalog unit market toTime count = .error e) ∧
    (∀ mkts, market ∈ mkts → ∃ m, m ∉ catalog ∧
      get_ticker catalog mkts = .error (.invalidMarket m)) ∧
    (∀ mkts, market ∈ mkts → ∃ m, m ∉ catalog ∧
      get_orderbook catalog mkts = .error (.invalidMarket m)) := by
  refine ⟨fun t c => ?_, fun t c => ?_, fun t c => ?_, fun t c cu => ?_, ?_,
    fun st pg ob => ?_, fun sd v p ot => ?_, fun u t c hu => ?_, fun u t c => ?_,
    fun mkts hmem => ?_, fun mkts hmem => ?_⟩
  · unfold get_days_candles candles_common
    rw [if_pos hm]
  · unfold get_weeks_candles candles_common
    rw [if_pos hm]
  · unfold get_months_candles candles_common
    rw [if_pos hm]
  · unfold get_trades_ticks
    rw [if_pos hm]
  · unfold get_chance
    rw [if_pos hm]
  · unfold get_orders
    rw [if_pos hm]
  · unfold order
    rw [if_pos hm]
  · unfold get_minutes_candles
    rw [if_neg (not_not_intro hu), if_pos hm]
  · by_cases hu : u ∈ ([1, 3, 5, 10, 15, 30, 60, 240] : List Int)
    · refine ⟨.invalidMarket market, ?_⟩
      unfold get_minutes_candles
      rw [if_neg (not_not_intro hu), if_pos hm]
    · refine ⟨.invalidUnit u, ?_⟩
      unfold get_minutes_candles
      rw [if_pos hu]
  · obtain ⟨m0, h1, h2⟩ :=
      ticker_common_invalid "https://api.upbit.com/v1/ticker" catalog mkts
        market hmem hm
    exact ⟨m0, h1, h2⟩
  · obtain ⟨m0, h1, h2⟩ :=
      ticker_common_invalid "https://api.upbit.com/v1/orderbook" catalog mkts
        market hmem hm
    exact ⟨m0, h1, h2⟩

/-- Witness for the amended C6: `get_chance` with an unknown market. -/
theorem invalid_market_rejected_before_network_witness :
    get_chance ["KRW-BTC"] "KRW-USD" = .error (.invalidMarket "KRW-USD") :=
  (invalid_market_rejected_before_network ["KRW-BTC"] "KRW-USD"
    (by decide)).2.2.2.2.1

end PyUpbit
